import Mathlib

/-!
Verification of the credential and one-time-code lifecycle subsystem of the
uigisc-be service, shallowly embedded from `app/services/sns.py`,
`app/services/auth.py` and `app/middleware/auth.py`.

Python dicts keyed by strings are modelled as association lists with
first-match lookup; `datetime.utcnow()` is passed explicitly as a `Nat`
timestamp (in seconds); the random 6-digit code produced by
`generate_verification_code` is passed explicitly as a parameter.
-/

namespace Uigisc

/-- Model of a Python `dict` with string keys: an association list where
lookup returns the first binding for a key. -/
def Store (α : Type) : Type := List (String × α)

instance {α : Type} [DecidableEq α] : DecidableEq (Store α) :=
  inferInstanceAs (DecidableEq (List (String × α)))

/-- `k in d` / `d[k]` access: first binding for the key, if any. -/
def Store.find? {α : Type} : Store α → String → Option α
  | [], _ => none
  | (k', v) :: rest, k => if k' = k then some v else Store.find? rest k

/-- `k in d` membership test. -/
def Store.contains {α : Type} (s : Store α) (k : String) : Bool :=
  (s.find? k).isSome

/-- `del d[k]`: remove every binding for the key. -/
def Store.erase {α : Type} : Store α → String → Store α
  | [], _ => []
  | (k', v) :: rest, k =>
      if k' = k then Store.erase rest k else (k', v) :: Store.erase rest k

/-- `d[k] = v`: bind the key to the value, replacing any prior binding. -/
def Store.insert {α : Type} (s : Store α) (k : String) (v : α) : Store α :=
  (k, v) :: s.erase k

theorem Store.find?_erase_self {α : Type} (s : Store α) (k : String) :
    (s.erase k).find? k = none := by
  induction s with
  | nil => rfl
  | cons p rest ih =>
      obtain ⟨k', v⟩ := p
      by_cases h : k' = k
      · simpa [Store.erase, h] using ih
      · simp [Store.erase, Store.find?, h, ih]

theorem Store.find?_erase_ne {α : Type} (s : Store α) {k k' : String}
    (h : k' ≠ k) : (s.erase k).find? k' = s.find? k' := by
  induction s with
  | nil => rfl
  | cons p rest ih =>
      obtain ⟨k₀, v⟩ := p
      by_cases h0 : k₀ = k
      · subst h0
        simp [Store.erase, Store.find?, Ne.symm h, ih]
      · by_cases h1 : k₀ = k'
        · simp [Store.erase, Store.find?, h0, h1, h]
        · simp [Store.erase, Store.find?, h0, h1, ih]

theorem Store.find?_insert_self {α : Type} (s : Store α) (k : String) (v : α) :
    (s.insert k v).find? k = some v := by
  simp [Store.insert, Store.find?]

theorem Store.find?_insert_ne {α : Type} (s : Store α) {k k' : String} (v : α)
    (h : k' ≠ k) : (s.insert k v).find? k' = s.find? k' := by
  simp [Store.insert, Store.find?, Ne.symm h, Store.find?_erase_ne s h]

/-- Model of Python's `str.lower()` (every key into the two code stores is
lower-cased first): lower-case each character. -/
def pyLower (s : String) : String := ⟨s.data.map Char.toLower⟩

/-! ### One-time-code store (`app/services/sns.py`) -/

/-- One entry of the `verification_codes` dict: created by
`send_verification_code_email` as
`{'code': code, 'expires_at': utcnow + 10 min, 'attempts': 0}`. -/
structure RegEntry where
  code : String
  expires_at : Nat
  attempts : Nat
deriving DecidableEq, Repr

/-- One entry of the `password_reset_codes` dict: created by
`send_password_reset_code_email` as
`{'code': code, 'expires_at': utcnow + 15 min, 'attempts': 0, 'verified': False}`. -/
structure ResetEntry where
  code : String
  expires_at : Nat
  attempts : Nat
  verified : Bool
deriving DecidableEq, Repr

/-- The `{'valid': ..., 'message': ...}` dict returned by the check functions. -/
structure CheckResult where
  valid : Bool
  message : String
deriving DecidableEq, Repr

/-- `timedelta(minutes=m)` in seconds. -/
def mins (m : Nat) : Nat := m * 60

/-- The store update performed by `send_verification_code_email`: it stores
the freshly generated code under the lower-cased email with a 10-minute
expiry and zero attempts, before and independently of the SES delivery
attempt (which never touches the store). -/
def issue_verification_code (store : Store RegEntry) (email code : String)
    (now : Nat) : Store RegEntry :=
  store.insert (pyLower email) ⟨code, now + mins 10, 0⟩

/-- The store update performed by `send_password_reset_code_email`: it stores
the freshly generated code under the lower-cased email with a 15-minute
expiry, zero attempts and `verified = False`, before and independently of the
SES delivery attempt. -/
def issue_password_reset_code (store : Store ResetEntry) (email code : String)
    (now : Nat) : Store ResetEntry :=
  store.insert (pyLower email) ⟨code, now + mins 15, 0, false⟩

/-- `verify_code(email, code)` from `app/services/sns.py`, with the mutable
global `verification_codes` dict passed and returned explicitly. -/
def verify_code (store : Store RegEntry) (email code : String) (now : Nat) :
    CheckResult × Store RegEntry :=
  let email_lower := pyLower email
  match store.find? email_lower with
  | none =>
      (⟨false, "No verification code found. Please request a new code."⟩, store)
  | some stored =>
      if now > stored.expires_at then
        (⟨false, "Verification code has expired. Please request a new code."⟩,
          store.erase email_lower)
      else if stored.attempts ≥ 5 then
        (⟨false, "Too many failed attempts. Please request a new code."⟩,
          store.erase email_lower)
      else if stored.code ≠ code then
        (⟨false, "Invalid code. " ++ toString (5 - (stored.attempts + 1)) ++
            " attempts remaining."⟩,
          store.insert email_lower { stored with attempts := stored.attempts + 1 })
      else
        (⟨true, "Email verified successfully"⟩, store.erase email_lower)

/-- `is_email_verified(email)` from `app/services/sns.py`:
`email.lower() not in verification_codes`. -/
def is_email_verified (store : Store RegEntry) (email : String) : Bool :=
  !(store.contains (pyLower email))

/-- `clear_verification_code(email)` from `app/services/sns.py`. -/
def clear_verification_code (store : Store RegEntry) (email : String) :
    Store RegEntry :=
  store.erase (pyLower email)

/-- `verify_password_reset_code(email, code)` from `app/services/sns.py`,
with the mutable global `password_reset_codes` dict passed and returned
explicitly.  On success it marks the entry verified but does not delete it. -/
def verify_password_reset_code (store : Store ResetEntry) (email code : String)
    (now : Nat) : CheckResult × Store ResetEntry :=
  let email_lower := pyLower email
  match store.find? email_lower with
  | none =>
      (⟨false, "No password reset code found. Please request a new code."⟩, store)
  | some stored =>
      if now > stored.expires_at then
        (⟨false, "Password reset code has expired. Please request a new code."⟩,
          store.erase email_lower)
      else if stored.attempts ≥ 5 then
        (⟨false, "Too many failed attempts. Please request a new code."⟩,
          store.erase email_lower)
      else if stored.code ≠ code then
        (⟨false, "Invalid code. " ++ toString (5 - (stored.attempts + 1)) ++
            " attempts remaining."⟩,
          store.insert email_lower { stored with attempts := stored.attempts + 1 })
      else
        (⟨true, "Code verified successfully. You can now reset your password."⟩,
          store.insert email_lower { stored with verified := true })

/-- `is_reset_code_verified(email)` from `app/services/sns.py`: lazily deletes
an expired entry, otherwise reports the stored `verified` flag (every entry is
created with the `verified` key present, so `.get('verified', False)` reads the
stored flag). -/
def is_reset_code_verified (store : Store ResetEntry) (email : String)
    (now : Nat) : Bool × Store ResetEntry :=
  let email_lower := pyLower email
  match store.find? email_lower with
  | none => (false, store)
  | some stored =>
      if now > stored.expires_at then (false, store.erase email_lower)
      else (stored.verified, store)

/-- `clear_password_reset_code(email)` from `app/services/sns.py`. -/
def clear_password_reset_code (store : Store ResetEntry) (email : String) :
    Store ResetEntry :=
  store.erase (pyLower email)

/-! ### Credential hasher (`app/services/auth.py`, bcrypt)

The `bcrypt` library is modelled by its documented behavior.  A Python `str`
value flowing through this component is either arbitrary text or a
well-formed bcrypt hash string (`$2b$<cost>$<salt><digest>`); the bcrypt text
encoding is kept abstract, so a well-formed hash is represented directly by
the salt and digest it determines, and text that does not parse as a bcrypt
hash by the `plain` constructor. -/

/-- A Python `str` as seen by the credential hasher. -/
inductive PyStr where
  | plain (s : String)
  | bhash (salt digest : Nat)
deriving DecidableEq, Repr

/-- Stand-in for the bcrypt key-derivation core: a deterministic digest of the
password and the salt.  No claim depends on its internal structure. -/
def bcryptDigest (password : PyStr) (salt : Nat) : Nat :=
  match password with
  | .plain s => s.foldl (fun a c => a * 31 + c.toNat + 1) (salt + 1)
  | .bhash s d => (s + d) * 31 + salt + 1

/-- `bcrypt.hashpw(password, salt)`: a well-formed hash string embedding the
salt and the digest of the password under that salt. -/
def bcrypt.hashpw (password : PyStr) (salt : Nat) : PyStr :=
  .bhash salt (bcryptDigest password salt)

/-- `bcrypt.checkpw(password, hashed)`: re-derives the digest with the salt
taken from the stored hash and compares.  Per the bcrypt documentation it
raises `ValueError("Invalid salt")` when the stored value does not parse as a
bcrypt hash; exceptions are modelled with `Except`. -/
def bcrypt.checkpw (password : PyStr) (hashed : PyStr) : Except String Bool :=
  match hashed with
  | .plain _ => .error "Invalid salt"
  | .bhash salt digest => .ok (bcryptDigest password salt == digest)

/-- `verify_password(plain_password, hashed_password)` from
`app/services/auth.py`: a bare call to `bcrypt.checkpw` with no exception
handling, so a `ValueError` from a malformed stored hash propagates. -/
def verify_password (plain_password hashed_password : PyStr) :
    Except String Bool :=
  bcrypt.checkpw plain_password hashed_password

/-- `get_password_hash(password)` from `app/services/auth.py`: hashes with a
fresh salt from `bcrypt.gensalt()`; the randomly generated salt is passed
explicitly. -/
def get_password_hash (password : PyStr) (salt : Nat) : PyStr :=
  bcrypt.hashpw password salt

/-! ### Token validator (`app/services/auth.py`, python-jose)

`jose.jwt` is modelled by its documented behavior: `jwt.decode` raises
`JWTError` when the token does not decode or its signature does not verify
against the given secret, and `ExpiredSignatureError` (a `JWTError`
subclass) when the current time is past the `exp` claim.  A token string is
either garbage text or the faithful encoding of a payload signed with some
secret. -/

/-- The claims dict carried by a JWT. -/
structure Payload where
  sub : Option String
  email : Option String
  role : Option String
  exp : Nat
deriving DecidableEq, Repr

/-- A candidate token string: garbage text, or `jwt.encode(payload, secret)`. -/
inductive TokenStr where
  | garbage (s : String)
  | signed (payload : Payload) (secret : String)
deriving DecidableEq, Repr

/-- The two failure classes of `jose.jwt.decode` relevant here; Python's
`ExpiredSignatureError` is a subclass of `JWTError`, so `except JWTError`
catches both. -/
inductive JWTError where
  | malformed
  | expiredSignature
deriving DecidableEq, Repr

/-- `settings.secret_key` from `app/config.py` (default value; loaded once
from the environment at process start). -/
def secret_key : String := "your-secret-key-change-in-production-min-32-chars"

/-- `jose.jwt.decode(token, key, algorithms)`: fails as `malformed` when the
encoding or the signature check fails, as `expiredSignature` when
`now > exp`, and otherwise returns the payload. -/
def jwt.decode (token : TokenStr) (key : String) (now : Nat) :
    Except JWTError Payload :=
  match token with
  | .garbage _ => .error .malformed
  | .signed payload tokenKey =>
      if tokenKey ≠ key then .error .malformed
      else if now > payload.exp then .error .expiredSignature
      else .ok payload

/-- `TokenData` from `app/schemas/user.py` (all fields optional). -/
structure TokenData where
  user_id : Option String
  email : Option String
  role : Option String
deriving DecidableEq, Repr

/-- `decode_access_token(token)` from `app/services/auth.py`: decodes with the
configured secret, returns `None` on any `JWTError` and when the `sub` claim
is absent, and otherwise builds a `TokenData` from the payload.  It consults
no store: its only inputs are the token and the clock. -/
def decode_access_token (token : TokenStr) (now : Nat) : Option TokenData :=
  match jwt.decode token secret_key now with
  | .error _ => none
  | .ok payload =>
      match payload.sub with
      | none => none
      | some user_id => some ⟨some user_id, payload.email, payload.role⟩

/-- `OptionalAuth.__call__` from `app/middleware/auth.py`: with
`HTTPBearer(auto_error=False)` the credentials are `None` when no token was
supplied; the function then returns `None`, and otherwise returns whatever
`decode_access_token` produced (which is itself `None` for an invalid
token — no exception is raised on that path). -/
def OptionalAuth.call (credentials : Option TokenStr) (now : Nat) :
    Option TokenData :=
  match credentials with
  | none => none
  | some cred => decode_access_token cred now

/-! ### Branch characterizations of the two check functions -/

theorem verify_code_not_found (store : Store RegEntry) (email code : String)
    (now : Nat) (h : store.find? (pyLower email) = none) :
    verify_code store email code now =
      (⟨false, "No verification code found. Please request a new code."⟩, store) := by
  simp [verify_code, h]

theorem verify_code_expired (store : Store RegEntry) (email code : String)
    (now : Nat) (e : RegEntry) (hf : store.find? (pyLower email) = some e)
    (hx : now > e.expires_at) :
    verify_code store email code now =
      (⟨false, "Verification code has expired. Please request a new code."⟩,
        store.erase (pyLower email)) := by
  simp [verify_code, hf, hx]

theorem verify_code_too_many (store : Store RegEntry) (email code : String)
    (now : Nat) (e : RegEntry) (hf : store.find? (pyLower email) = some e)
    (hx : ¬ now > e.expires_at) (ha : e.attempts ≥ 5) :
    verify_code store email code now =
      (⟨false, "Too many failed attempts. Please request a new code."⟩,
        store.erase (pyLower email)) := by
  simp [verify_code, hf, hx, ha]

theorem verify_code_mismatch (store : Store RegEntry) (email code : String)
    (now : Nat) (e : RegEntry) (hf : store.find? (pyLower email) = some e)
    (hx : ¬ now > e.expires_at) (ha : ¬ e.attempts ≥ 5) (hc : e.code ≠ code) :
    verify_code store email code now =
      (⟨false, "Invalid code. " ++ toString (5 - (e.attempts + 1)) ++
          " attempts remaining."⟩,
        store.insert (pyLower email) { e with attempts := e.attempts + 1 }) := by
  simp [verify_code, hf, hx, ha, hc]

theorem verify_code_valid (store : Store RegEntry) (email code : String)
    (now : Nat) (e : RegEntry) (hf : store.find? (pyLower email) = some e)
    (hx : ¬ now > e.expires_at) (ha : ¬ e.attempts ≥ 5) (hc : e.code = code) :
    verify_code store email code now =
      (⟨true, "Email verified successfully"⟩, store.erase (pyLower email)) := by
  simp [verify_code, hf, hx, ha, hc]

theorem reset_check_not_found (store : Store ResetEntry) (email code : String)
    (now : Nat) (h : store.find? (pyLower email) = none) :
    verify_password_reset_code store email code now =
      (⟨false, "No password reset code found. Please request a new code."⟩,
        store) := by
  simp [verify_password_reset_code, h]

theorem reset_check_expired (store : Store ResetEntry) (email code : String)
    (now : Nat) (e : ResetEntry) (hf : store.find? (pyLower email) = some e)
    (hx : now > e.expires_at) :
    verify_password_reset_code store email code now =
      (⟨false, "Password reset code has expired. Please request a new code."⟩,
        store.erase (pyLower email)) := by
  simp [verify_password_reset_code, hf, hx]

theorem reset_check_too_many (store : Store ResetEntry) (email code : String)
    (now : Nat) (e : ResetEntry) (hf : store.find? (pyLower email) = some e)
    (hx : ¬ now > e.expires_at) (ha : e.attempts ≥ 5) :
    verify_password_reset_code store email code now =
      (⟨false, "Too many failed attempts. Please request a new code."⟩,
        store.erase (pyLower email)) := by
  simp [verify_password_reset_code, hf, hx, ha]

theorem reset_check_mismatch (store : Store ResetEntry) (email code : String)
    (now : Nat) (e : ResetEntry) (hf : store.find? (pyLower email) = some e)
    (hx : ¬ now > e.expires_at) (ha : ¬ e.attempts ≥ 5) (hc : e.code ≠ code) :
    verify_password_reset_code store email code now =
      (⟨false, "Invalid code. " ++ toString (5 - (e.attempts + 1)) ++
          " attempts remaining."⟩,
        store.insert (pyLower email) { e with attempts := e.attempts + 1 }) := by
  simp [verify_password_reset_code, hf, hx, ha, hc]

theorem reset_check_valid (store : Store ResetEntry) (email code : String)
    (now : Nat) (e : ResetEntry) (hf : store.find? (pyLower email) = some e)
    (hx : ¬ now > e.expires_at) (ha : ¬ e.attempts ≥ 5) (hc : e.code = code) :
    verify_password_reset_code store email code now =
      (⟨true, "Code verified successfully. You can now reset your password."⟩,
        store.insert (pyLower email) { e with verified := true }) := by
  simp [verify_password_reset_code, hf, hx, ha, hc]

/-! ### Claim theorems -/

/-- C1: for every email and candidate code, both `verify_code`
(registration-verify flow) and `verify_password_reset_code` (password-reset
flow) apply the spec's tests in exactly this order: no entry for the
(lower-cased email, flow) key → NotFound reply, store unchanged; else
`now > expires_at` → entry deleted, Expired reply; else `attempt_count >= 5`
→ entry deleted, TooManyAttempts reply; else candidate ≠ stored code →
`attempt_count` incremented by one, Mismatch reply carrying
`5 - attempt_count` remaining attempts; else the Valid reply. -/
theorem check_follows_spec_order (rstore : Store RegEntry)
    (pstore : Store ResetEntry) (email code : String) (now : Nat) :
    ((rstore.find? (pyLower email) = none →
        verify_code rstore email code now =
          (⟨false, "No verification code found. Please request a new code."⟩,
            rstore)) ∧
     (∀ e, rstore.find? (pyLower email) = some e →
        (now > e.expires_at →
           verify_code rstore email code now =
             (⟨false, "Verification code has expired. Please request a new code."⟩,
               rstore.erase (pyLower email))) ∧
        (¬ now > e.expires_at → e.attempts ≥ 5 →
           verify_code rstore email code now =
             (⟨false, "Too many failed attempts. Please request a new code."⟩,
               rstore.erase (pyLower email))) ∧
        (¬ now > e.expires_at → ¬ e.attempts ≥ 5 → e.code ≠ code →
           verify_code rstore email code now =
             (⟨false, "Invalid code. " ++ toString (5 - (e.attempts + 1)) ++
                 " attempts remaining."⟩,
               rstore.insert (pyLower email) { e with attempts := e.attempts + 1 })) ∧
        (¬ now > e.expires_at → ¬ e.attempts ≥ 5 → e.code = code →
           verify_code rstore email code now =
             (⟨true, "Email verified successfully"⟩,
               rstore.erase (pyLower email))))) ∧
    ((pstore.find? (pyLower email) = none →
        verify_password_reset_code pstore email code now =
          (⟨false, "No password reset code found. Please request a new code."⟩,
            pstore)) ∧
     (∀ e, pstore.find? (pyLower email) = some e →
        (now > e.expires_at →
           verify_password_reset_code pstore email code now =
             (⟨false, "Password reset code has expired. Please request a new code."⟩,
               pstore.erase (pyLower email))) ∧
        (¬ now > e.expires_at → e.attempts ≥ 5 →
           verify_password_reset_code pstore email code now =
             (⟨false, "Too many failed attempts. Please request a new code."⟩,
               pstore.erase (pyLower email))) ∧
        (¬ now > e.expires_at → ¬ e.attempts ≥ 5 → e.code ≠ code →
           verify_password_reset_code pstore email code now =
             (⟨false, "Invalid code. " ++ toString (5 - (e.attempts + 1)) ++
                 " attempts remaining."⟩,
               pstore.insert (pyLower email) { e with attempts := e.attempts + 1 })) ∧
        (¬ now > e.expires_at → ¬ e.attempts ≥ 5 → e.code = code →
           verify_password_reset_code pstore email code now =
             (⟨true, "Code verified successfully. You can now reset your password."⟩,
               pstore.insert (pyLower email) { e with verified := true })))) := by
  refine ⟨⟨fun h => verify_code_not_found _ _ _ _ h, fun e hf => ⟨?_, ?_, ?_, ?_⟩⟩,
          ⟨fun h => reset_check_not_found _ _ _ _ h, fun e hf => ⟨?_, ?_, ?_, ?_⟩⟩⟩
  · exact fun hx => verify_code_expired _ _ _ _ _ hf hx
  · exact fun hx ha => verify_code_too_many _ _ _ _ _ hf hx ha
  · exact fun hx ha hc => verify_code_mismatch _ _ _ _ _ hf hx ha hc
  · exact fun hx ha hc => verify_code_valid _ _ _ _ _ hf hx ha hc
  · exact fun hx => reset_check_expired _ _ _ _ _ hf hx
  · exact fun hx ha => reset_check_too_many _ _ _ _ _ hf hx ha
  · exact fun hx ha hc => reset_check_mismatch _ _ _ _ _ hf hx ha hc
  · exact fun hx ha hc => reset_check_valid _ _ _ _ _ hf hx ha hc

/-- C1 witness: on an empty store (no prior issue), a check in either flow
reports NotFound. -/
theorem check_follows_spec_order_witness :
    verify_code [] "Never@X.com" "123456" 0 =
      (⟨false, "No verification code found. Please request a new code."⟩, []) ∧
    verify_password_reset_code [] "Never@X.com" "123456" 0 =
      (⟨false, "No password reset code found. Please request a new code."⟩, []) :=
  ⟨(check_follows_spec_order [] [] "Never@X.com" "123456" 0).1.1 rfl,
   (check_follows_spec_order [] [] "Never@X.com" "123456" 0).2.1 rfl⟩

/-- C2: in the password-reset flow a successful check marks the entry
`verified := true` without deleting it; `is_reset_code_verified` then holds
exactly when an entry exists, is unexpired and is verified, lazily deleting
an expired entry; and after `clear_password_reset_code` it is false. -/
theorem reset_verified_lifecycle (store : Store ResetEntry)
    (email code : String) (now : Nat) :
    (∀ e, store.find? (pyLower email) = some e → ¬ now > e.expires_at →
       ¬ e.attempts ≥ 5 → e.code = code →
       verify_password_reset_code store email code now =
         (⟨true, "Code verified successfully. You can now reset your password."⟩,
           store.insert (pyLower email) { e with verified := true }) ∧
       (store.insert (pyLower email) { e with verified := true }).find?
           (pyLower email) = some { e with verified := true }) ∧
    (∀ t, ((is_reset_code_verified store email t).1 = true ↔
       ∃ e, store.find? (pyLower email) = some e ∧ ¬ t > e.expires_at ∧
         e.verified = true)) ∧
    (∀ e t, store.find? (pyLower email) = some e → t > e.expires_at →
       is_reset_code_verified store email t = (false, store.erase (pyLower email))) ∧
    (∀ t, (is_reset_code_verified (clear_password_reset_code store email)
        email t).1 = false) := by
  refine ⟨fun e hf hx ha hc =>
      ⟨reset_check_valid _ _ _ _ _ hf hx ha hc, Store.find?_insert_self _ _ _⟩,
    fun t => ?_, fun e t hf hx => by simp [is_reset_code_verified, hf, hx],
    fun t => ?_⟩
  · cases hf : store.find? (pyLower email) with
    | none => simp [is_reset_code_verified, hf]
    | some e =>
        by_cases hx : t > e.expires_at
        · simp [is_reset_code_verified, hf, hx]
        · simp [is_reset_code_verified, hf, hx, Nat.not_lt.mp hx]
  · have h : (clear_password_reset_code store email).find? (pyLower email) = none :=
      Store.find?_erase_self store (pyLower email)
    simp [is_reset_code_verified, h]

/-- C2 witness: the spec's scenario with a concrete store. -/
theorem reset_verified_lifecycle_witness :
    verify_password_reset_code [("a@x.com", ⟨"482913", 900, 1, false⟩)]
        "a@x.com" "482913" 0 =
      (⟨true, "Code verified successfully. You can now reset your password."⟩,
        Store.insert [("a@x.com", ⟨"482913", 900, 1, false⟩)] (pyLower "a@x.com")
          ⟨"482913", 900, 1, true⟩) :=
  ((reset_verified_lifecycle [("a@x.com", ⟨"482913", 900, 1, false⟩)]
      "a@x.com" "482913" 0).1 ⟨"482913", 900, 1, false⟩ (by decide) (by decide)
      (by decide) rfl).1

/-- C5: issuing a code for a key replaces any prior entry for that key with a
fresh entry (attempt_count 0, expiry now + 10 min for registration-verify and
now + 15 min for password-reset, `verified = false` for password-reset), so
the store keeps at most one live entry per key, and a check with a different
previous code after a re-issue returns the Mismatch reply, not Valid. -/
theorem reissue_replaces_entry (rstore : Store RegEntry)
    (pstore : Store ResetEntry) (email oldc newc : String) (now t : Nat) :
    ((issue_verification_code rstore email newc now).find? (pyLower email) =
        some ⟨newc, now + mins 10, 0⟩) ∧
    ((issue_password_reset_code pstore email newc now).find? (pyLower email) =
        some ⟨newc, now + mins 15, 0, false⟩) ∧
    (oldc ≠ newc → ¬ t > now + mins 10 →
       verify_code (issue_verification_code rstore email newc now) email oldc t =
         (⟨false, "Invalid code. 4 attempts remaining."⟩,
           (issue_verification_code rstore email newc now).insert (pyLower email)
             ⟨newc, now + mins 10, 1⟩)) ∧
    (oldc ≠ newc → ¬ t > now + mins 15 →
       verify_password_reset_code (issue_password_reset_code pstore email newc now)
           email oldc t =
         (⟨false, "Invalid code. 4 attempts remaining."⟩,
           (issue_password_reset_code pstore email newc now).insert (pyLower email)
             ⟨newc, now + mins 15, 1, false⟩)) := by
  have hr : (issue_verification_code rstore email newc now).find? (pyLower email) =
      some ⟨newc, now + mins 10, 0⟩ := Store.find?_insert_self _ _ _
  have hp : (issue_password_reset_code pstore email newc now).find? (pyLower email) =
      some ⟨newc, now + mins 15, 0, false⟩ := Store.find?_insert_self _ _ _
  refine ⟨hr, hp, fun hne hx => ?_, fun hne hx => ?_⟩
  · rw [verify_code_mismatch _ _ _ _ _ hr hx
      (show ¬ (5:Nat) ≤ 0 by decide) (Ne.symm hne)]
    dsimp only
    exact rfl
  · rw [reset_check_mismatch _ _ _ _ _ hp hx
      (show ¬ (5:Nat) ≤ 0 by decide) (Ne.symm hne)]
    dsimp only
    exact rfl

/-- C5 witness: after a re-issue, checking the old (different) code yields
the Mismatch reply. -/
theorem reissue_replaces_entry_witness :
    verify_code (issue_verification_code [] "a@x.com" "222222" 0)
        "a@x.com" "111111" 0 =
      (⟨false, "Invalid code. 4 attempts remaining."⟩,
        (issue_verification_code [] "a@x.com" "222222" 0).insert
          (pyLower "a@x.com") ⟨"222222", 0 + mins 10, 1⟩) :=
  (reissue_replaces_entry [] [] "a@x.com" "111111" "222222" 0 0).2.2.1
    (by decide) (by decide)

theorem not_gt_within_15 {t now : Nat} (h : ¬ t > now + mins 10) :
    ¬ t > now + mins 15 := by
  simp only [mins] at *
  omega

/-- C3: starting from a freshly issued code in either flow, five consecutive
checks with a wrong code followed by a sixth check with the correct code
give TooManyAttempts on the sixth call, which also deletes the entry; the
resulting store then answers NotFound (never Valid) to every further check
and is left unchanged by it, so only a new issue can lead to Valid. -/
theorem sixth_check_too_many_attempts (rstore : Store RegEntry)
    (pstore : Store ResetEntry) (email good wrong : String)
    (now t1 t2 t3 t4 t5 t6 : Nat)
    (s1 s2 s3 s4 s5 : Store RegEntry) (r1 r2 r3 r4 r5 : Store ResetEntry)
    (hw : wrong ≠ good)
    (h1 : ¬ t1 > now + mins 10) (h2 : ¬ t2 > now + mins 10)
    (h3 : ¬ t3 > now + mins 10) (h4 : ¬ t4 > now + mins 10)
    (h5 : ¬ t5 > now + mins 10) (h6 : ¬ t6 > now + mins 10)
    (hs1 : s1 = (verify_code (issue_verification_code rstore email good now)
        email wrong t1).2)
    (hs2 : s2 = (verify_code s1 email wrong t2).2)
    (hs3 : s3 = (verify_code s2 email wrong t3).2)
    (hs4 : s4 = (verify_code s3 email wrong t4).2)
    (hs5 : s5 = (verify_code s4 email wrong t5).2)
    (hr1 : r1 = (verify_password_reset_code
        (issue_password_reset_code pstore email good now) email wrong t1).2)
    (hr2 : r2 = (verify_password_reset_code r1 email wrong t2).2)
    (hr3 : r3 = (verify_password_reset_code r2 email wrong t3).2)
    (hr4 : r4 = (verify_password_reset_code r3 email wrong t4).2)
    (hr5 : r5 = (verify_password_reset_code r4 email wrong t5).2) :
    (verify_code s5 email good t6 =
       (⟨false, "Too many failed attempts. Please request a new code."⟩,
         s5.erase (pyLower email)) ∧
     (verify_code s5 email good t6).2.find? (pyLower email) = none ∧
     (∀ c t, verify_code (verify_code s5 email good t6).2 email c t =
        (⟨false, "No verification code found. Please request a new code."⟩,
          (verify_code s5 email good t6).2))) ∧
    (verify_password_reset_code r5 email good t6 =
       (⟨false, "Too many failed attempts. Please request a new code."⟩,
         r5.erase (pyLower email)) ∧
     (verify_password_reset_code r5 email good t6).2.find? (pyLower email) =
       none ∧
     (∀ c t, verify_password_reset_code
          (verify_password_reset_code r5 email good t6).2 email c t =
        (⟨false, "No password reset code found. Please request a new code."⟩,
          (verify_password_reset_code r5 email good t6).2))) := by
  have p1 := not_gt_within_15 h1
  have p2 := not_gt_within_15 h2
  have p3 := not_gt_within_15 h3
  have p4 := not_gt_within_15 h4
  have p5 := not_gt_within_15 h5
  have p6 := not_gt_within_15 h6
  have f0 : (issue_verification_code rstore email good now).find?
      (pyLower email) = some ⟨good, now + mins 10, 0⟩ :=
    Store.find?_insert_self _ _ _
  have e1 : s1 = (issue_verification_code rstore email good now).insert
      (pyLower email) ⟨good, now + mins 10, 1⟩ := by
    rw [hs1, verify_code_mismatch _ _ _ _ _ f0 h1
      (show ¬ (5:Nat) ≤ 0 by decide) (Ne.symm hw)]
  have f1 : s1.find? (pyLower email) = some ⟨good, now + mins 10, 1⟩ := by
    rw [e1]; exact Store.find?_insert_self _ _ _
  have e2 : s2 = s1.insert (pyLower email) ⟨good, now + mins 10, 2⟩ := by
    rw [hs2, verify_code_mismatch _ _ _ _ _ f1 h2
      (show ¬ (5:Nat) ≤ 1 by decide) (Ne.symm hw)]
  have f2 : s2.find? (pyLower email) = some ⟨good, now + mins 10, 2⟩ := by
    rw [e2]; exact Store.find?_insert_self _ _ _
  have e3 : s3 = s2.insert (pyLower email) ⟨good, now + mins 10, 3⟩ := by
    rw [hs3, verify_code_mismatch _ _ _ _ _ f2 h3
      (show ¬ (5:Nat) ≤ 2 by decide) (Ne.symm hw)]
  have f3 : s3.find? (pyLower email) = some ⟨good, now + mins 10, 3⟩ := by
    rw [e3]; exact Store.find?_insert_self _ _ _
  have e4 : s4 = s3.insert (pyLower email) ⟨good, now + mins 10, 4⟩ := by
    rw [hs4, verify_code_mismatch _ _ _ _ _ f3 h4
      (show ¬ (5:Nat) ≤ 3 by decide) (Ne.symm hw)]
  have f4 : s4.find? (pyLower email) = some ⟨good, now + mins 10, 4⟩ := by
    rw [e4]; exact Store.find?_insert_self _ _ _
  have e5 : s5 = s4.insert (pyLower email) ⟨good, now + mins 10, 5⟩ := by
    rw [hs5, verify_code_mismatch _ _ _ _ _ f4 h5
      (show ¬ (5:Nat) ≤ 4 by decide) (Ne.symm hw)]
  have f5 : s5.find? (pyLower email) = some ⟨good, now + mins 10, 5⟩ := by
    rw [e5]; exact Store.find?_insert_self _ _ _
  have q6 : verify_code s5 email good t6 =
      (⟨false, "Too many failed attempts. Please request a new code."⟩,
        s5.erase (pyLower email)) :=
    verify_code_too_many _ _ _ _ _ f5 h6 (show (5:Nat) ≤ 5 by decide)
  have g0 : (issue_password_reset_code pstore email good now).find?
      (pyLower email) = some ⟨good, now + mins 15, 0, false⟩ :=
    Store.find?_insert_self _ _ _
  have d1 : r1 = (issue_password_reset_code pstore email good now).insert
      (pyLower email) ⟨good, now + mins 15, 1, false⟩ := by
    rw [hr1, reset_check_mismatch _ _ _ _ _ g0 p1
      (show ¬ (5:Nat) ≤ 0 by decide) (Ne.symm hw)]
  have g1 : r1.find? (pyLower email) = some ⟨good, now + mins 15, 1, false⟩ := by
    rw [d1]; exact Store.find?_insert_self _ _ _
  have d2 : r2 = r1.insert (pyLower email) ⟨good, now + mins 15, 2, false⟩ := by
    rw [hr2, reset_check_mismatch _ _ _ _ _ g1 p2
      (show ¬ (5:Nat) ≤ 1 by decide) (Ne.symm hw)]
  have g2 : r2.find? (pyLower email) = some ⟨good, now + mins 15, 2, false⟩ := by
    rw [d2]; exact Store.find?_insert_self _ _ _
  have d3 : r3 = r2.insert (pyLower email) ⟨good, now + mins 15, 3, false⟩ := by
    rw [hr3, reset_check_mismatch _ _ _ _ _ g2 p3
      (show ¬ (5:Nat) ≤ 2 by decide) (Ne.symm hw)]
  have g3 : r3.find? (pyLower email) = some ⟨good, now + mins 15, 3, false⟩ := by
    rw [d3]; exact Store.find?_insert_self _ _ _
  have d4 : r4 = r3.insert (pyLower email) ⟨good, now + mins 15, 4, false⟩ := by
    rw [hr4, reset_check_mismatch _ _ _ _ _ g3 p4
      (show ¬ (5:Nat) ≤ 3 by decide) (Ne.symm hw)]
  have g4 : r4.find? (pyLower email) = some ⟨good, now + mins 15, 4, false⟩ := by
    rw [d4]; exact Store.find?_insert_self _ _ _
  have d5 : r5 = r4.insert (pyLower email) ⟨good, now + mins 15, 5, false⟩ := by
    rw [hr5, reset_check_mismatch _ _ _ _ _ g4 p5
      (show ¬ (5:Nat) ≤ 4 by decide) (Ne.symm hw)]
  have g5 : r5.find? (pyLower email) = some ⟨good, now + mins 15, 5, false⟩ := by
    rw [d5]; exact Store.find?_insert_self _ _ _
  have w6 : verify_password_reset_code r5 email good t6 =
      (⟨false, "Too many failed attempts. Please request a new code."⟩,
        r5.erase (pyLower email)) :=
    reset_check_too_many _ _ _ _ _ g5 p6 (show (5:Nat) ≤ 5 by decide)
  refine ⟨⟨q6, ?_, fun c t => ?_⟩, ⟨w6, ?_, fun c t => ?_⟩⟩
  · rw [q6]; exact Store.find?_erase_self _ _
  · rw [q6]; exact verify_code_not_found _ _ _ _ (Store.find?_erase_self _ _)
  · rw [w6]; exact Store.find?_erase_self _ _
  · rw [w6]; exact reset_check_not_found _ _ _ _ (Store.find?_erase_self _ _)

/-- C3 witness: a concrete run of issue, five wrong checks and a sixth
correct check in the registration-verify flow. -/
theorem sixth_check_too_many_attempts_witness :
    verify_code [("a@x.com", ⟨"482913", 600, 5⟩)] "a@x.com" "482913" 300 =
      (⟨false, "Too many failed attempts. Please request a new code."⟩,
        Store.erase [("a@x.com", ⟨"482913", 600, 5⟩)] (pyLower "a@x.com")) :=
  (sixth_check_too_many_attempts [] [] "a@x.com" "482913" "000000"
      0 0 0 0 0 0 300
      [("a@x.com", ⟨"482913", 600, 1⟩)] [("a@x.com", ⟨"482913", 600, 2⟩)]
      [("a@x.com", ⟨"482913", 600, 3⟩)] [("a@x.com", ⟨"482913", 600, 4⟩)]
      [("a@x.com", ⟨"482913", 600, 5⟩)]
      [("a@x.com", ⟨"482913", 900, 1, false⟩)]
      [("a@x.com", ⟨"482913", 900, 2, false⟩)]
      [("a@x.com", ⟨"482913", 900, 3, false⟩)]
      [("a@x.com", ⟨"482913", 900, 4, false⟩)]
      [("a@x.com", ⟨"482913", 900, 5, false⟩)]
      (by decide) (by decide) (by decide) (by decide) (by decide) (by decide)
      (by decide) (by decide) (by decide) (by decide) (by decide) (by decide)
      (by decide) (by decide) (by decide) (by decide) (by decide)).1.1

theorem verify_code_post (store : Store RegEntry) (email code : String)
    (now : Nat) (e : RegEntry) (hf : store.find? (pyLower email) = some e) :
    (verify_code store email code now).2.find? (pyLower email) = none ∨
    ((verify_code store email code now).2.find? (pyLower email) =
        some { e with attempts := e.attempts + 1 } ∧
      ¬ now > e.expires_at ∧ ¬ e.attempts ≥ 5 ∧ e.code ≠ code) := by
  by_cases hx : now > e.expires_at
  · left; rw [verify_code_expired _ _ _ _ _ hf hx]
    exact Store.find?_erase_self _ _
  · by_cases ha : e.attempts ≥ 5
    · left; rw [verify_code_too_many _ _ _ _ _ hf hx ha]
      exact Store.find?_erase_self _ _
    · by_cases hc : e.code = code
      · left; rw [verify_code_valid _ _ _ _ _ hf hx ha hc]
        exact Store.find?_erase_self _ _
      · right
        refine ⟨?_, hx, ha, hc⟩
        rw [verify_code_mismatch _ _ _ _ _ hf hx ha hc]
        exact Store.find?_insert_self _ _ _

theorem reset_check_post (store : Store ResetEntry) (email code : String)
    (now : Nat) (e : ResetEntry) (hf : store.find? (pyLower email) = some e) :
    (verify_password_reset_code store email code now).2.find? (pyLower email) =
        none ∨
    ((verify_password_reset_code store email code now).2.find? (pyLower email) =
        some { e with attempts := e.attempts + 1 } ∧
      ¬ now > e.expires_at ∧ ¬ e.attempts ≥ 5 ∧ e.code ≠ code) ∨
    ((verify_password_reset_code store email code now).2.find? (pyLower email) =
        some { e with verified := true } ∧
      ¬ now > e.expires_at ∧ ¬ e.attempts ≥ 5 ∧ e.code = code) := by
  by_cases hx : now > e.expires_at
  · left; rw [reset_check_expired _ _ _ _ _ hf hx]
    exact Store.find?_erase_self _ _
  · by_cases ha : e.attempts ≥ 5
    · left; rw [reset_check_too_many _ _ _ _ _ hf hx ha]
      exact Store.find?_erase_self _ _
    · by_cases hc : e.code = code
      · right; right
        refine ⟨?_, hx, ha, hc⟩
        rw [reset_check_valid _ _ _ _ _ hf hx ha hc]
        exact Store.find?_insert_self _ _ _
      · right; left
        refine ⟨?_, hx, ha, hc⟩
        rw [reset_check_mismatch _ _ _ _ _ hf hx ha hc]
        exact Store.find?_insert_self _ _ _

/-- C4 counterexample: on an unexpired entry with 4 recorded attempts, the
5th failed comparison leaves the entry in the store (with `attempts = 5`)
instead of deleting it immediately as the claim states; it is only deleted
by the next check call. -/
theorem fifth_failure_not_deleted_counterexample :
    (verify_code [("a@x.com", ⟨"482913", 600, 4⟩)] "a@x.com" "000000" 0).2.find?
        (pyLower "a@x.com") = some ⟨"482913", 600, 5⟩ := by
  decide

/-- C4 amended: `attempt_count` starts at 0 when a code is issued, changes
only by the failed-comparison increment, and never exceeds 5; after the 5th
failed comparison the entry remains in the store with `attempt_count = 5`,
and the next (unexpired) check call for that key returns TooManyAttempts
and deletes it, so the flow must restart with a new issue.  Both flows. -/
theorem attempt_count_lifecycle (rstore : Store RegEntry)
    (pstore : Store ResetEntry) (email code : String) (now : Nat) :
    ((issue_verification_code rstore email code now).find? (pyLower email) =
        some ⟨code, now + mins 10, 0⟩) ∧
    ((issue_password_reset_code pstore email code now).find? (pyLower email) =
        some ⟨code, now + mins 15, 0, false⟩) ∧
    (∀ e e', rstore.find? (pyLower email) = some e →
       (verify_code rstore email code now).2.find? (pyLower email) = some e' →
       e'.attempts ≠ e.attempts →
       e.code ≠ code ∧ e' = { e with attempts := e.attempts + 1 }) ∧
    (∀ e e', pstore.find? (pyLower email) = some e →
       (verify_password_reset_code pstore email code now).2.find?
           (pyLower email) = some e' →
       e'.attempts ≠ e.attempts →
       e.code ≠ code ∧ e' = { e with attempts := e.attempts + 1 }) ∧
    (∀ e e', rstore.find? (pyLower email) = some e → e.attempts ≤ 5 →
       (verify_code rstore email code now).2.find? (pyLower email) = some e' →
       e'.attempts ≤ 5) ∧
    (∀ e e', pstore.find? (pyLower email) = some e → e.attempts ≤ 5 →
       (verify_password_reset_code pstore email code now).2.find?
           (pyLower email) = some e' →
       e'.attempts ≤ 5) ∧
    (∀ e, rstore.find? (pyLower email) = some e → e.attempts = 4 →
       ¬ now > e.expires_at → e.code ≠ code →
       (verify_code rstore email code now).2.find? (pyLower email) =
         some ⟨e.code, e.expires_at, 5⟩ ∧
       (∀ c t, ¬ t > e.expires_at →
          verify_code (verify_code rstore email code now).2 email c t =
            (⟨false, "Too many failed attempts. Please request a new code."⟩,
              (verify_code rstore email code now).2.erase (pyLower email)))) ∧
    (∀ e, pstore.find? (pyLower email) = some e → e.attempts = 4 →
       ¬ now > e.expires_at → e.code ≠ code →
       (verify_password_reset_code pstore email code now).2.find?
           (pyLower email) = some ⟨e.code, e.expires_at, 5, e.verified⟩ ∧
       (∀ c t, ¬ t > e.expires_at →
          verify_password_reset_code
              (verify_password_reset_code pstore email code now).2 email c t =
            (⟨false, "Too many failed attempts. Please request a new code."⟩,
              (verify_password_reset_code pstore email code now).2.erase
                (pyLower email)))) := by
  refine ⟨Store.find?_insert_self _ _ _, Store.find?_insert_self _ _ _,
    fun e e' hf hf' hne => ?_, fun e e' hf hf' hne => ?_,
    fun e e' hf hle hf' => ?_, fun e e' hf hle hf' => ?_,
    fun e hf h4 hx hc => ?_, fun e hf h4 hx hc => ?_⟩
  · rcases verify_code_post rstore email code now e hf with hn | ⟨hs, _, _, hcw⟩
    · rw [hn] at hf'; exact nomatch hf'
    · rw [hs] at hf'
      injection hf' with h
      exact ⟨hcw, h.symm⟩
  · rcases reset_check_post pstore email code now e hf with
      hn | ⟨hs, _, _, hcw⟩ | ⟨hs, _, _, _⟩
    · rw [hn] at hf'; exact nomatch hf'
    · rw [hs] at hf'
      injection hf' with h
      exact ⟨hcw, h.symm⟩
    · rw [hs] at hf'
      injection hf' with h
      exact absurd (congrArg ResetEntry.attempts h.symm) hne
  · rcases verify_code_post rstore email code now e hf with hn | ⟨hs, _, ha, _⟩
    · rw [hn] at hf'; exact nomatch hf'
    · rw [hs] at hf'
      injection hf' with h
      rw [← h]
      show e.attempts + 1 ≤ 5
      simp only [Nat.not_le] at ha
      omega
  · rcases reset_check_post pstore email code now e hf with
      hn | ⟨hs, _, ha, _⟩ | ⟨hs, _, _, _⟩
    · rw [hn] at hf'; exact nomatch hf'
    · rw [hs] at hf'
      injection hf' with h
      rw [← h]
      show e.attempts + 1 ≤ 5
      simp only [Nat.not_le] at ha
      omega
    · rw [hs] at hf'
      injection hf' with h
      rw [← h]
      exact hle
  · have ha : ¬ e.attempts ≥ 5 := by omega
    have hm := verify_code_mismatch _ _ _ _ _ hf hx ha hc
    have hupd : ({ e with attempts := e.attempts + 1 } : RegEntry) =
        ⟨e.code, e.expires_at, 5⟩ := by
      rw [h4]
    have hpost : (verify_code rstore email code now).2.find? (pyLower email) =
        some ⟨e.code, e.expires_at, 5⟩ := by
      rw [hm, ← hupd]
      exact Store.find?_insert_self _ _ _
    refine ⟨hpost, fun c t ht => ?_⟩
    exact verify_code_too_many _ _ _ _ _ hpost ht (show (5:Nat) ≤ 5 by decide)
  · have ha : ¬ e.attempts ≥ 5 := by omega
    have hm := reset_check_mismatch _ _ _ _ _ hf hx ha hc
    have hupd : ({ e with attempts := e.attempts + 1 } : ResetEntry) =
        ⟨e.code, e.expires_at, 5, e.verified⟩ := by
      rw [h4]
    have hpost : (verify_password_reset_code pstore email code now).2.find?
        (pyLower email) = some ⟨e.code, e.expires_at, 5, e.verified⟩ := by
      rw [hm, ← hupd]
      exact Store.find?_insert_self _ _ _
    refine ⟨hpost, fun c t ht => ?_⟩
    exact reset_check_too_many _ _ _ _ _ hpost ht (show (5:Nat) ≤ 5 by decide)

/-- C4 amended witness: the 5th failed comparison leaves the entry with
`attempt_count = 5` in the store. -/
theorem attempt_count_lifecycle_witness :
    (verify_code [("a@x.com", ⟨"482913", 600, 4⟩)] "a@x.com" "111111" 0).2.find?
        (pyLower "a@x.com") = some ⟨"482913", 600, 5⟩ :=
  ((attempt_count_lifecycle [("a@x.com", ⟨"482913", 600, 4⟩)] []
      "a@x.com" "111111" 0).2.2.2.2.2.2.1 ⟨"482913", 600, 4⟩
      (by decide) (by decide) (by decide) (by decide)).1

/-- C6 counterexample: `verify_password` on a stored value that is not a
well-formed bcrypt hash propagates bcrypt's `ValueError("Invalid salt")`
instead of returning false, so the operation is not total as claimed. -/
theorem verify_password_malformed_counterexample :
    verify_password (PyStr.plain "password123") (PyStr.plain "notahash") =
      Except.error "Invalid salt" ∧
    verify_password (PyStr.plain "password123") (PyStr.plain "notahash") ≠
      Except.ok false :=
  ⟨rfl, fun h => nomatch h⟩

/-- C6 amended: `verify_password` raises bcrypt's `ValueError` on every
malformed stored hash (there is no exception handler, so the error
propagates; false is not returned), and returns a boolean exactly on the
well-formed bcrypt hashes. -/
theorem verify_password_error_behavior (p : PyStr) (s : String)
    (salt digest : Nat) :
    verify_password p (PyStr.plain s) = Except.error "Invalid salt" ∧
    verify_password p (PyStr.bhash salt digest) =
      Except.ok (bcryptDigest p salt == digest) :=
  ⟨rfl, rfl⟩

/-- C7: `decode_access_token` fails (returns `None`) precisely when the
underlying `jose` decode raises `JWTError` — `malformed` when the encoding
or the signature check against the configured secret fails, and
`expiredSignature` when `now > exp` — or when the decoded payload has no
`sub` claim; on success it returns the decoded claims (subject, email, role)
unchanged.  Its inputs are only the token and the clock: there is no store
lookup and no revocation check. -/
theorem decode_access_token_cases (token : TokenStr) (now : Nat) :
    (∀ s, token = TokenStr.garbage s →
       jwt.decode token secret_key now = Except.error JWTError.malformed ∧
       decode_access_token token now = none) ∧
    (∀ p k, token = TokenStr.signed p k → k ≠ secret_key →
       jwt.decode token secret_key now = Except.error JWTError.malformed ∧
       decode_access_token token now = none) ∧
    (∀ p, token = TokenStr.signed p secret_key → now > p.exp →
       jwt.decode token secret_key now = Except.error JWTError.expiredSignature ∧
       decode_access_token token now = none) ∧
    (∀ p, token = TokenStr.signed p secret_key → ¬ now > p.exp → p.sub = none →
       decode_access_token token now = none) ∧
    (∀ p u, token = TokenStr.signed p secret_key → ¬ now > p.exp →
       p.sub = some u →
       decode_access_token token now = some ⟨some u, p.email, p.role⟩) := by
  refine ⟨fun s h => ?_, fun p k h hk => ?_, fun p h hx => ?_,
    fun p h hx hs => ?_, fun p u h hx hs => ?_⟩ <;> subst h
  · exact ⟨rfl, rfl⟩
  · exact ⟨by simp [jwt.decode, hk], by simp [decode_access_token, jwt.decode, hk]⟩
  · exact ⟨by simp [jwt.decode, hx], by simp [decode_access_token, jwt.decode, hx]⟩
  · simp [decode_access_token, jwt.decode, hx, hs]
  · simp [decode_access_token, jwt.decode, hx, hs]

/-- C7 witness: a token signed with the right secret but past its expiry
fails validation. -/
theorem decode_access_token_cases_witness :
    decode_access_token
      (TokenStr.signed ⟨some "u1", some "u@x.com", some "user", 100⟩ secret_key)
      101 = none :=
  ((decode_access_token_cases
      (TokenStr.signed ⟨some "u1", some "u@x.com", some "user", 100⟩ secret_key)
      101).2.2.1 _ rfl (by decide)).2

/-- C8 counterexample: `OptionalAuth.__call__` with an invalid (undecodable)
token returns `None` — the same anonymous result it returns when no token is
supplied — rather than propagating an error, so 'bad credential supplied'
is not distinguished from 'no credential supplied'. -/
theorem optional_auth_counterexample :
    OptionalAuth.call (some (TokenStr.garbage "not-a-jwt")) 0 = none ∧
    OptionalAuth.call none 0 = none :=
  ⟨rfl, rfl⟩

/-- C8 amended: a request with no token yields the anonymous result `None`;
a request with a token that fails validation also yields `None`
(`decode_access_token` swallows the `JWTError` and `OptionalAuth.__call__`
returns its `None` result), so the two cases are not distinguished and no
error propagates; a valid token yields its decoded claims. -/
theorem optional_auth_behavior (token : TokenStr) (now : Nat) :
    OptionalAuth.call none now = none ∧
    (decode_access_token token now = none →
       OptionalAuth.call (some token) now = none) ∧
    (∀ d, decode_access_token token now = some d →
       OptionalAuth.call (some token) now = some d) :=
  ⟨rfl, fun h => h, fun _ h => h⟩

/-- C8 amended witness: a garbage token yields the anonymous result. -/
theorem optional_auth_behavior_witness :
    OptionalAuth.call (some (TokenStr.garbage "xxx")) 0 = none :=
  (optional_auth_behavior (TokenStr.garbage "xxx") 0).2.1 rfl

/-- C9: verifying a password against its own hash succeeds for every
password and salt, and two hashes of the same password made with different
salts (a fresh random salt is drawn by `bcrypt.gensalt()` on each call)
are different strings. -/
theorem password_hash_verify_roundtrip :
    (∀ (P : PyStr) (salt : Nat),
       verify_password P (get_password_hash P salt) = Except.ok true) ∧
    (∀ (P : PyStr) (s₁ s₂ : Nat), s₁ ≠ s₂ →
       get_password_hash P s₁ ≠ get_password_hash P s₂) := by
  constructor
  · intro P salt
    simp [verify_password, get_password_hash, bcrypt.checkpw, bcrypt.hashpw]
  · intro P s₁ s₂ h hc
    simp [get_password_hash, bcrypt.hashpw] at hc
    exact h hc.1

/-- C9 witness: two concrete salts give different hashes of one password. -/
theorem password_hash_verify_roundtrip_witness :
    get_password_hash (PyStr.plain "pw12345678") 1 ≠
      get_password_hash (PyStr.plain "pw12345678") 2 :=
  password_hash_verify_roundtrip.2 (PyStr.plain "pw12345678") 1 2 (by decide)

/-- C10: `is_email_verified` is exactly key-absence in the
`verification_codes` store for the lower-cased email: it is true whenever no
entry exists, in particular on a store where no code was ever issued, and it
is equally true after an entry is removed by a successful check, by lazy
expiry, or by the too-many-attempts eviction — the three are
indistinguishable to it. -/
theorem is_email_verified_absence (store : Store RegEntry)
    (email code : String) (now : Nat) :
    (is_email_verified store email = true ↔
       store.find? (pyLower email) = none) ∧
    (is_email_verified ([] : Store RegEntry) email = true) ∧
    (∀ e, store.find? (pyLower email) = some e → now > e.expires_at →
       is_email_verified (verify_code store email code now).2 email = true) ∧
    (∀ e, store.find? (pyLower email) = some e → ¬ now > e.expires_at →
       e.attempts ≥ 5 →
       is_email_verified (verify_code store email code now).2 email = true) ∧
    (∀ e, store.find? (pyLower email) = some e → ¬ now > e.expires_at →
       ¬ e.attempts ≥ 5 → e.code = code →
       is_email_verified (verify_code store email code now).2 email = true) := by
  refine ⟨?_, rfl, fun e hf hx => ?_, fun e hf hx ha => ?_,
    fun e hf hx ha hc => ?_⟩
  · cases h : store.find? (pyLower email) <;>
      simp [is_email_verified, Store.contains, h]
  · rw [verify_code_expired _ _ _ _ _ hf hx]
    simp [is_email_verified, Store.contains, Store.find?_erase_self]
  · rw [verify_code_too_many _ _ _ _ _ hf hx ha]
    simp [is_email_verified, Store.contains, Store.find?_erase_self]
  · rw [verify_code_valid _ _ _ _ _ hf hx ha hc]
    simp [is_email_verified, Store.contains, Store.find?_erase_self]

/-- C10 witness: an email for which an unexpired entry was evicted by the
attempt limit counts as verified. -/
theorem is_email_verified_absence_witness :
    is_email_verified
      (verify_code [("a@x.com", ⟨"482913", 600, 5⟩)] "a@x.com" "482913" 0).2
      "a@x.com" = true :=
  (is_email_verified_absence [("a@x.com", ⟨"482913", 600, 5⟩)]
      "a@x.com" "482913" 0).2.2.2.1 ⟨"482913", 600, 5⟩ (by decide) (by decide)
      (by decide)

end Uigisc
